import Mathlib

/-!
Shallow embedding of the Lumina "Body" firmware control core
(src/firmware/src/main.cpp, first document): the command dispatcher
parseCommand, the UDP transport handler handleUDP, audio streaming
control (startAudioStreaming / stopAudioStreaming), the microphone
capture pipeline of micStreamTask (signal conditioning and packet
framing), and the device state they mutate.

Conventions:
* Arduino String values are modelled as List Char; the String methods
  the firmware uses (startsWith, indexOf, lastIndexOf, substring,
  toInt, trim, toLowerCase) are modelled below with C/Arduino
  semantics (toInt is atol: skip spaces, optional sign, leading
  digits, defaulting to 0).
* Machine integers are modelled as Int/Nat with explicit wrapping:
  wrap16 for int16_t casts, taking the value modulo 2 ^ 32 for the
  uint32_t sequence counter.  C integer division truncates toward
  zero, which is Int.tdiv.
* The float arithmetic of the high pass filter is modelled over the
  rationals.
* Hardware calls are modelled as event traces inside the state:
  ampWrites records every digitalWrite to the amplifier enable pin,
  servoWrites records servo pulse and angle writes, tones records
  LEDC tone bursts, replies records sendStatus datagrams.
-/

/-- Arduino String.startsWith on character lists: first argument is
the string, second the candidate leading substring. -/
def startsWithAux : List Char → List Char → Bool
  | [], _ => true
  | _ :: _, [] => false
  | p :: ps, c :: cs => if c = p then startsWithAux ps cs else false

/-- The candidate leading substring is the second argument. -/
def startsWithL (s pat : List Char) : Bool := startsWithAux pat s

/-- Helper for charIndexOfL, carrying the index of the head. -/
def charIndexOfAux (c : Char) : List Char → Nat → Int
  | [], _ => -1
  | a :: as, i => if a = c then (i : Int) else charIndexOfAux c as (i + 1)

/-- Arduino String.indexOf for a single character: index of the first
occurrence, or -1 when absent. -/
def charIndexOfL (c : Char) (l : List Char) : Int := charIndexOfAux c l 0

/-- Helper for lastIndexOfL, carrying the current index and the best
match so far. -/
def lastIndexOfAux (c : Char) : List Char → Nat → Int → Int
  | [], _, best => best
  | a :: as, i, best => lastIndexOfAux c as (i + 1) (if a = c then (i : Int) else best)

/-- Arduino String.lastIndexOf for a single character. -/
def lastIndexOfL (c : Char) (l : List Char) : Int := lastIndexOfAux c l 0 (-1)

/-- C isspace, as used by String.trim and atol. -/
def isSpaceA (c : Char) : Bool :=
  c = ' ' || c = '\t' || c = '\n' || c = '\x0b' || c = '\x0c' || c = '\r'

/-- Accumulate leading decimal digits, stopping at the first
non-digit (atol behaviour). -/
def digitsVal : List Char → Int → Int
  | [], acc => acc
  | c :: cs, acc => if c.isDigit then digitsVal cs (acc * 10 + ((c.toNat : Int) - 48)) else acc

/-- Arduino String.toInt (atol): skip whitespace, optional sign,
leading digits; a string with no leading number parses to 0. -/
def toIntL (l : List Char) : Int :=
  match l.dropWhile isSpaceA with
  | '-' :: rest => -(digitsVal rest 0)
  | '+' :: rest => digitsVal rest 0
  | rest => digitsVal rest 0

/-- Arduino String.trim: strip leading and trailing whitespace. -/
def trimL (l : List Char) : List Char :=
  ((l.dropWhile isSpaceA).reverse.dropWhile isSpaceA).reverse

/-- Arduino String.toLowerCase. -/
def toLowerL (l : List Char) : List Char := l.map Char.toLower

/-- Arduino constrain(amt, low, high). -/
def constrain (x lo hi : Int) : Int := if x < lo then lo else if hi < x then hi else x

/-- Arduino map(x, in_min, in_max, out_min, out_max) with C integer
division (truncation toward zero). -/
def mapA (x inMin inMax outMin outMax : Int) : Int :=
  Int.tdiv ((x - inMin) * (outMax - outMin)) (inMax - inMin) + outMin

/-- Conversion of a mathematical integer to the int16_t it is stored
as (two's complement wrap). -/
def wrap16 (x : Int) : Int := (x + 32768) % 65536 - 32768

/-- Conversion of a mathematical integer to the uint8_t it is stored
as (as in the CRGB constructor). -/
def byteOf (x : Int) : Nat := (x % 256).toNat

/-- FaceState enum of the firmware. -/
inductive Face
  | sleep
  | happy
  | talking
  | listening
  | sad
  | love
  deriving DecidableEq, Repr

/-- The two servo axes. -/
inductive Axis
  | pan
  | tilt
  deriving DecidableEq, Repr

/-- A servo hardware call: writeMicroseconds or write (degrees). -/
inductive ServoEv
  | us (a : Axis) (v : Int)
  | deg (a : Axis) (v : Int)
  deriving DecidableEq, Repr

/-- An RGB colour (CRGB). -/
structure Color where
  r : Nat
  g : Nat
  b : Nat
  deriving DecidableEq, Repr

def colorWhite : Color := ⟨255, 255, 255⟩
def colorRed : Color := ⟨255, 0, 0⟩
def colorGreen : Color := ⟨0, 128, 0⟩
def colorBlue : Color := ⟨0, 0, 255⟩
def colorYellow : Color := ⟨255, 255, 0⟩
def colorOrange : Color := ⟨255, 165, 0⟩
def colorPurple : Color := ⟨128, 0, 128⟩
def colorDeepPink : Color := ⟨255, 20, 147⟩
def colorCyan : Color := ⟨0, 255, 255⟩
def colorWarm : Color := ⟨255, 200, 100⟩
def colorCool : Color := ⟨200, 220, 255⟩

/-- The device state: the firmware's globals, the function-local
static variables of parseCommand (neutral pulse widths, speed,
duration, tracked angles), and the hardware event traces. -/
structure DState where
  currentFace : Face
  chatMode : Bool
  isTalking : Bool
  isLocked : Bool
  targetPan : Int
  targetTilt : Int
  currentPan : Int
  currentTilt : Int
  mouthState : Int
  currentColor : Color
  currentBrightness : Int
  brainIP : Nat
  brainConnected : Bool
  audioStreamingActive : Bool
  driversInstalled : Bool
  micTaskLive : Bool
  speakerTaskLive : Bool
  firstPacketReceived : Bool
  neutralPan : Int
  neutralTilt : Int
  moveSpeed : Int
  moveDuration : Int
  currentPanAngle : Int
  currentTiltAngle : Int
  panAttached : Bool
  tiltAttached : Bool
  ampEnabled : Bool
  ampWrites : List Bool
  servoWrites : List ServoEv
  tones : List (Int × Int)
  replies : List (List Char)
  restarted : Bool
  deriving DecidableEq, Repr

/-- Boot state: globals as initialised at the top of main.cpp and in
setup() (servos not attached, amplifier muted, no peer learned). -/
def initState : DState where
  currentFace := Face.sleep
  chatMode := false
  isTalking := false
  isLocked := false
  targetPan := 90
  targetTilt := 90
  currentPan := 90
  currentTilt := 90
  mouthState := 0
  currentColor := colorWhite
  currentBrightness := 80
  brainIP := 0
  brainConnected := false
  audioStreamingActive := false
  driversInstalled := false
  micTaskLive := false
  speakerTaskLive := false
  firstPacketReceived := false
  neutralPan := 1500
  neutralTilt := 1500
  moveSpeed := 50
  moveDuration := 100
  currentPanAngle := 90
  currentTiltAngle := 90
  panAttached := false
  tiltAttached := false
  ampEnabled := false
  ampWrites := []
  servoWrites := []
  tones := []
  replies := []
  restarted := false

/-- digitalWrite(PIN_AMP_EN, v): set the amplifier enable line and
record the write. -/
def setAmp (v : Bool) (s : DState) : DState :=
  { s with ampEnabled := v, ampWrites := s.ampWrites ++ [v] }

/-- sendStatus: fire-and-forget datagram to the last known peer,
silently skipped when no peer has been learned. -/
def sendStatus (msg : List Char) (s : DState) : DState :=
  if s.brainConnected then { s with replies := s.replies ++ [msg] } else s

/-- servo.writeMicroseconds(v) on an axis: record the pulse write. -/
def servoUs (a : Axis) (v : Int) (s : DState) : DState :=
  { s with servoWrites := s.servoWrites ++ [ServoEv.us a v] }

/-- servo.write(v) (degrees) on an axis: record the angle write. -/
def servoDeg (a : Axis) (v : Int) (s : DState) : DState :=
  { s with servoWrites := s.servoWrites ++ [ServoEv.deg a v] }

/-! Command verbs and reply strings, as character lists. -/

def cDISCOVER : List Char := ['D', 'I', 'S', 'C', 'O', 'V', 'E', 'R']
def cPING : List Char := ['P', 'I', 'N', 'G']
def cWIFI_RESET : List Char := ['W', 'I', 'F', 'I', '_', 'R', 'E', 'S', 'E', 'T']
def cTEXTpre : List Char := ['T', 'E', 'X', 'T', ':']
def cPpre : List Char := ['P']
def cRESET_POS : List Char := ['R', 'E', 'S', 'E', 'T', '_', 'P', 'O', 'S']
def cF_TALK_START : List Char := ['F', '_', 'T', 'A', 'L', 'K', '_', 'S', 'T', 'A', 'R', 'T']
def cF_TALK_STOP : List Char := ['F', '_', 'T', 'A', 'L', 'K', '_', 'S', 'T', 'O', 'P']
def cF_HAPPY : List Char := ['F', '_', 'H', 'A', 'P', 'P', 'Y']
def cF_SLEEP : List Char := ['F', '_', 'S', 'L', 'E', 'E', 'P']
def cF_LISTENING : List Char := ['F', '_', 'L', 'I', 'S', 'T', 'E', 'N', 'I', 'N', 'G']
def cF_SAD : List Char := ['F', '_', 'S', 'A', 'D']
def cF_LOVE : List Char := ['F', '_', 'L', 'O', 'V', 'E']
def cLpre : List Char := ['L']
def cBpre : List Char := ['B']
def cCpre : List Char := ['C']
def cCOLORpre : List Char := ['C', 'O', 'L', 'O', 'R', ':']
def cCHAT_START : List Char := ['C', 'H', 'A', 'T', '_', 'S', 'T', 'A', 'R', 'T']
def cCHAT_STOP : List Char := ['C', 'H', 'A', 'T', '_', 'S', 'T', 'O', 'P']
def cTONEpre : List Char := ['T', 'O', 'N', 'E']
def cSOUND_TESTpre : List Char := ['S', 'O', 'U', 'N', 'D', '_', 'T', 'E', 'S', 'T']
def cMIC_TEST : List Char := ['M', 'I', 'C', '_', 'T', 'E', 'S', 'T']
def cAMP_STATUS : List Char := ['A', 'M', 'P', '_', 'S', 'T', 'A', 'T', 'U', 'S']
def cAUDIO_START : List Char := ['A', 'U', 'D', 'I', 'O', '_', 'S', 'T', 'A', 'R', 'T']
def cAUDIO_STOP : List Char := ['A', 'U', 'D', 'I', 'O', '_', 'S', 'T', 'O', 'P']
def cSERVO_CALpre : List Char := ['S', 'E', 'R', 'V', 'O', '_', 'C', 'A', 'L', ':']
def cSERVO_CAL_PANpre : List Char := ['S', 'E', 'R', 'V', 'O', '_', 'C', 'A', 'L', '_', 'P', 'A', 'N', ':']
def cSERVO_CAL_TILTpre : List Char := ['S', 'E', 'R', 'V', 'O', '_', 'C', 'A', 'L', '_', 'T', 'I', 'L', 'T', ':']
def cSERVO_ENABLE : List Char := ['S', 'E', 'R', 'V', 'O', '_', 'E', 'N', 'A', 'B', 'L', 'E']
def cSERVO_DISABLE : List Char := ['S', 'E', 'R', 'V', 'O', '_', 'D', 'I', 'S', 'A', 'B', 'L', 'E']
def cSERVO_STOP : List Char := ['S', 'E', 'R', 'V', 'O', '_', 'S', 'T', 'O', 'P']
def cSTOP : List Char := ['S', 'T', 'O', 'P']
def cSERVO_SPEEDpre : List Char := ['S', 'E', 'R', 'V', 'O', '_', 'S', 'P', 'E', 'E', 'D', ':']
def cSERVO_DURATIONpre : List Char := ['S', 'E', 'R', 'V', 'O', '_', 'D', 'U', 'R', 'A', 'T', 'I', 'O', 'N', ':']
def cPAN_LEFT : List Char := ['P', 'A', 'N', '_', 'L', 'E', 'F', 'T']
def cPAN_RIGHT : List Char := ['P', 'A', 'N', '_', 'R', 'I', 'G', 'H', 'T']
def cTILT_UP : List Char := ['T', 'I', 'L', 'T', '_', 'U', 'P']
def cTILT_DOWN : List Char := ['T', 'I', 'L', 'T', '_', 'D', 'O', 'W', 'N']
def cSERVO_TEST : List Char := ['S', 'E', 'R', 'V', 'O', '_', 'T', 'E', 'S', 'T']
def cSERVO_STATUS : List Char := ['S', 'E', 'R', 'V', 'O', '_', 'S', 'T', 'A', 'T', 'U', 'S']
def cSERVO_PANpre : List Char := ['S', 'E', 'R', 'V', 'O', '_', 'P', 'A', 'N', ':']
def cSERVO_TILTpre : List Char := ['S', 'E', 'R', 'V', 'O', '_', 'T', 'I', 'L', 'T', ':']
def cSERVO_HELP : List Char := ['S', 'E', 'R', 'V', 'O', '_', 'H', 'E', 'L', 'P']
def rLUMINA_BODY : List Char := ['L', 'U', 'M', 'I', 'N', 'A', '_', 'B', 'O', 'D', 'Y']
def rPONG : List Char := ['P', 'O', 'N', 'G']
def rSTATUS_LISTENING : List Char := ['S', 'T', 'A', 'T', 'U', 'S', ':', 'L', 'I', 'S', 'T', 'E', 'N', 'I', 'N', 'G']
def rSTATUS_MUTE : List Char := ['S', 'T', 'A', 'T', 'U', 'S', ':', 'M', 'U', 'T', 'E']
def rAUDIO_STREAMING : List Char := ['A', 'U', 'D', 'I', 'O', ':', 'S', 'T', 'R', 'E', 'A', 'M', 'I', 'N', 'G']
def rAUDIO_STOPPED : List Char := ['A', 'U', 'D', 'I', 'O', ':', 'S', 'T', 'O', 'P', 'P', 'E', 'D']
def nRED : List Char := ['r', 'e', 'd']
def nGREEN : List Char := ['g', 'r', 'e', 'e', 'n']
def nBLUE : List Char := ['b', 'l', 'u', 'e']
def nYELLOW : List Char := ['y', 'e', 'l', 'l', 'o', 'w']
def nORANGE : List Char := ['o', 'r', 'a', 'n', 'g', 'e']
def nPURPLE : List Char := ['p', 'u', 'r', 'p', 'l', 'e']
def nPINK : List Char := ['p', 'i', 'n', 'k']
def nCYAN : List Char := ['c', 'y', 'a', 'n']
def nWHITE : List Char := ['w', 'h', 'i', 't', 'e']
def nWARM : List Char := ['w', 'a', 'r', 'm']
def nCOOL : List Char := ['c', 'o', 'o', 'l']

/-! Command handlers, one definition per branch of parseCommand, in
the order they appear in the dispatch chain. -/

/-- DISCOVER: reply with the identity string. -/
def discoverH (s : DState) : DState := sendStatus rLUMINA_BODY s

/-- PING: reply PONG. -/
def pingH (s : DState) : DState := sendStatus rPONG s

/-- WIFI_RESET: clear credentials and restart (restart modelled as a
flag; the process state is otherwise abandoned). -/
def wifiResetH (s : DState) : DState := { s with restarted := true }

/-- TEXT:<msg>: draws on the display only; no modelled state. -/
def textH (s : DState) : DState := s

/-- P<int>T<int>: parse pan and tilt, constrain both to [30, 150],
lock the head. -/
def ptH (cmd : List Char) (s : DState) : DState :=
  let tIndex := (charIndexOfL 'T' cmd).toNat
  let p := toIntL ((cmd.drop 1).take (tIndex - 1))
  let t := toIntL (cmd.drop (tIndex + 1))
  { s with targetPan := constrain p 30 150
           targetTilt := constrain t 30 150
           isLocked := true }

/-- RESET_POS: recentre the firmware's idea of the position. -/
def resetPosH (s : DState) : DState :=
  { s with currentPan := 90, currentTilt := 90, targetPan := 90, targetTilt := 90 }

/-- F_TALK_START: talking face, amplifier enabled. -/
def fTalkStartH (s : DState) : DState :=
  setAmp true { s with isTalking := true, currentFace := Face.talking }

/-- F_TALK_STOP: happy face; amplifier muted only when chat mode is
not active. -/
def fTalkStopH (s : DState) : DState :=
  let s1 := { s with isTalking := false, mouthState := 0, currentFace := Face.happy }
  if !s1.chatMode then setAmp false s1 else s1

/-- F_HAPPY. -/
def fHappyH (s : DState) : DState :=
  { s with currentFace := Face.happy, isLocked := true }

/-- F_SLEEP: clears chat and talk flags, default colour, mutes amp. -/
def fSleepH (s : DState) : DState :=
  setAmp false { s with currentFace := Face.sleep, isLocked := false,
                        isTalking := false, chatMode := false,
                        currentColor := colorWhite }

/-- F_LISTENING: listening face, green mood colour. -/
def fListeningH (s : DState) : DState :=
  { s with currentFace := Face.listening, currentColor := colorGreen }

/-- F_SAD. -/
def fSadH (s : DState) : DState := { s with currentFace := Face.sad }

/-- F_LOVE. -/
def fLoveH (s : DState) : DState :=
  { s with currentFace := Face.love, currentColor := colorDeepPink }

/-- L<int>: brightness, constrained to [0, 255]. -/
def lH (cmd : List Char) (s : DState) : DState :=
  { s with currentBrightness := constrain (toIntL (cmd.drop 1)) 0 255 }

/-- B<int>: brightness percent [0, 100] mapped to [0, 255]. -/
def bH (cmd : List Char) (s : DState) : DState :=
  { s with currentBrightness := mapA (constrain (toIntL (cmd.drop 1)) 0 100) 0 100 0 255 }

/-- C<r>,<g>,<b>: literal RGB colour (CRGB stores uint8 components). -/
def cH (cmd : List Char) (s : DState) : DState :=
  let c1 := (charIndexOfL ',' cmd).toNat
  let c2 := (lastIndexOfL ',' cmd).toNat
  let r := toIntL ((cmd.drop 1).take (c1 - 1))
  let g := toIntL ((cmd.drop (c1 + 1)).take (c2 - (c1 + 1)))
  let b := toIntL (cmd.drop (c2 + 1))
  { s with currentColor := ⟨byteOf r, byteOf g, byteOf b⟩ }

/-- COLOR:<name>: fixed name table; an unrecognised name leaves the
colour unchanged (no default case in the source). -/
def colorLookup (name : List Char) (old : Color) : Color :=
  if name = nRED then colorRed
  else if name = nGREEN then colorGreen
  else if name = nBLUE then colorBlue
  else if name = nYELLOW then colorYellow
  else if name = nORANGE then colorOrange
  else if name = nPURPLE then colorPurple
  else if name = nPINK then colorDeepPink
  else if name = nCYAN then colorCyan
  else if name = nWHITE then colorWhite
  else if name = nWARM then colorWarm
  else if name = nCOOL then colorCool
  else old

/-- COLOR:<name> handler. -/
def colorH (cmd : List Char) (s : DState) : DState :=
  { s with currentColor := colorLookup (toLowerL (cmd.drop 6)) s.currentColor }

/-- CHAT_START: chat mode on, listening face, colour kept, amp
enabled, reply STATUS:LISTENING. -/
def chatStartH (s : DState) : DState :=
  sendStatus rSTATUS_LISTENING
    (setAmp true { s with chatMode := true, currentFace := Face.listening })

/-- CHAT_STOP: chat and talk off, default colour, sleep face, amp
muted, reply STATUS:MUTE. -/
def chatStopH (s : DState) : DState :=
  sendStatus rSTATUS_MUTE
    (setAmp false { s with chatMode := false, isTalking := false,
                           currentColor := colorWhite, currentFace := Face.sleep })

/-- playTone(freq, duration): no-op unless both positive; amplifier
driven high for the tone, muted afterwards unless chat mode was
active when the tone started. -/
def playTone (freq durationMs : Int) (s : DState) : DState :=
  if freq ≤ 0 ∨ durationMs ≤ 0 then s
  else
    let wasChat := s.chatMode
    let s1 := setAmp true s
    let s2 := { s1 with tones := s1.tones ++ [(freq, durationMs)] }
    if !wasChat then setAmp false s2 else s2

/-- TONE or TONE:<freq>,<durMs> or TONE:<freq>: defaults 1500 Hz,
300 ms. -/
def toneH (cmd : List Char) (s : DState) : DState :=
  let colon := charIndexOfL ':' cmd
  let fd : Int × Int :=
    if 0 ≤ colon then
      let params := cmd.drop (colon.toNat + 1)
      let comma := charIndexOfL ',' params
      if 0 < comma then
        (toIntL (params.take comma.toNat), toIntL (params.drop (comma.toNat + 1)))
      else
        (toIntL params, 300)
    else (1500, 300)
  playTone fd.1 fd.2 s

/-- SOUND_TEST[:freq,ms]: bit-bangs the tone pin with the amp
enabled, then mutes the amp unconditionally.  The pin toggles are not
modelled; the two amplifier writes are. -/
def soundTestH (s : DState) : DState := setAmp false (setAmp true s)

/-- MIC_TEST: diagnostic print only. -/
def micTestH (s : DState) : DState := s

/-- AMP_STATUS: diagnostic print only. -/
def ampStatusH (s : DState) : DState := s

/-- startAudioStreaming: refuses when already active or when no peer
has been learned; otherwise installs the I2S drivers (modelled as
succeeding), marks streaming active and spawns both tasks. -/
def startAudioStreaming (s : DState) : DState :=
  if s.audioStreamingActive then s
  else if !s.brainConnected then s
  else
    { s with driversInstalled := true, audioStreamingActive := true,
             micTaskLive := true, speakerTaskLive := true }

/-- stopAudioStreaming: no-op when inactive; otherwise clears the
active flag, deletes both tasks, uninstalls the drivers and mutes the
amplifier.  The speaker task's local firstPacketReceived flag dies
with the task, so it is cleared here. -/
def stopAudioStreaming (s : DState) : DState :=
  if !s.audioStreamingActive then s
  else
    setAmp false
      { s with audioStreamingActive := false, micTaskLive := false,
               speakerTaskLive := false, firstPacketReceived := false,
               driversInstalled := false }

/-- AUDIO_START: start streaming then send AUDIO:STREAMING (the send
is silently skipped when no peer is known). -/
def audioStartH (s : DState) : DState :=
  sendStatus rAUDIO_STREAMING (startAudioStreaming s)

/-- AUDIO_STOP: stop streaming then send AUDIO:STOPPED. -/
def audioStopH (s : DState) : DState :=
  sendStatus rAUDIO_STOPPED (stopAudioStreaming s)

/-- SERVO_CAL:<us>: accept only [1400, 1600]; sets both neutrals and
applies them immediately when the servos are attached; out-of-range
values are logged and ignored. -/
def servoCalH (rest : List Char) (s : DState) : DState :=
  let v := toIntL rest
  if 1400 ≤ v ∧ v ≤ 1600 then
    let s1 := { s with neutralPan := v, neutralTilt := v }
    if s1.panAttached then servoUs Axis.tilt v (servoUs Axis.pan v s1) else s1
  else s

/-- SERVO_CAL_PAN:<us>: pan neutral only; silently ignored outside
[1400, 1600]. -/
def servoCalPanH (rest : List Char) (s : DState) : DState :=
  let v := toIntL rest
  if 1400 ≤ v ∧ v ≤ 1600 then
    let s1 := { s with neutralPan := v }
    if s1.panAttached then servoUs Axis.pan v s1 else s1
  else s

/-- SERVO_CAL_TILT:<us>: tilt neutral only. -/
def servoCalTiltH (rest : List Char) (s : DState) : DState :=
  let v := toIntL rest
  if 1400 ≤ v ∧ v ≤ 1600 then
    let s1 := { s with neutralTilt := v }
    if s1.tiltAttached then servoUs Axis.tilt v s1 else s1
  else s

/-- SERVO_ENABLE: attach both servos and centre them at 90 degrees. -/
def servoEnableH (s : DState) : DState :=
  let s1 := { s with panAttached := true, tiltAttached := true }
  let s2 := servoDeg Axis.tilt 90 (servoDeg Axis.pan 90 s1)
  { s2 with currentPanAngle := 90, currentTiltAngle := 90 }

/-- SERVO_DISABLE: write the neutrals, then detach both servos. -/
def servoDisableH (s : DState) : DState :=
  let s1 := servoUs Axis.tilt s.neutralTilt (servoUs Axis.pan s.neutralPan s)
  { s1 with panAttached := false, tiltAttached := false }

/-- SERVO_STOP or STOP: write both neutrals. -/
def servoStopH (s : DState) : DState :=
  servoUs Axis.tilt s.neutralTilt (servoUs Axis.pan s.neutralPan s)

/-- SERVO_SPEED:<n>: accept only [10, 200]. -/
def servoSpeedH (rest : List Char) (s : DState) : DState :=
  let v := toIntL rest
  if 10 ≤ v ∧ v ≤ 200 then { s with moveSpeed := v } else s

/-- SERVO_DURATION:<n>: accept only [50, 1000]. -/
def servoDurationH (rest : List Char) (s : DState) : DState :=
  let v := toIntL rest
  if 50 ≤ v ∧ v ≤ 1000 then { s with moveDuration := v } else s

/-- PAN_LEFT: when attached, pulse neutral + speed for moveDuration
milliseconds, then stop at neutral. -/
def panLeftH (s : DState) : DState :=
  if !s.panAttached then s
  else servoUs Axis.pan s.neutralPan (servoUs Axis.pan (s.neutralPan + s.moveSpeed) s)

/-- PAN_RIGHT: pulse neutral - speed, then stop. -/
def panRightH (s : DState) : DState :=
  if !s.panAttached then s
  else servoUs Axis.pan s.neutralPan (servoUs Axis.pan (s.neutralPan - s.moveSpeed) s)

/-- TILT_UP: pulse neutral + speed on the tilt axis, then stop. -/
def tiltUpH (s : DState) : DState :=
  if !s.tiltAttached then s
  else servoUs Axis.tilt s.neutralTilt (servoUs Axis.tilt (s.neutralTilt + s.moveSpeed) s)

/-- TILT_DOWN: pulse neutral - speed on the tilt axis, then stop. -/
def tiltDownH (s : DState) : DState :=
  if !s.tiltAttached then s
  else servoUs Axis.tilt s.neutralTilt (servoUs Axis.tilt (s.neutralTilt - s.moveSpeed) s)

/-- SERVO_TEST: a burst in each direction on both axes. -/
def servoTestH (s : DState) : DState :=
  if !s.panAttached then s
  else
    let w := fun (a : Axis) (v : Int) (t : DState) => servoUs a v t
    (w Axis.tilt s.neutralTilt
      (w Axis.tilt (s.neutralTilt - s.moveSpeed)
        (w Axis.tilt s.neutralTilt
          (w Axis.tilt (s.neutralTilt + s.moveSpeed)
            (w Axis.pan s.neutralPan
              (w Axis.pan (s.neutralPan - s.moveSpeed)
                (w Axis.pan s.neutralPan
                  (w Axis.pan (s.neutralPan + s.moveSpeed) s))))))))

/-- SERVO_STATUS: diagnostic print only. -/
def servoStatusH (s : DState) : DState := s

/-- One-degree steps from a to b inclusive, ascending. -/
def ascSteps (a b : Int) : List Int :=
  (List.range (b - a + 1).toNat).map (fun i => a + i)

/-- One-degree steps from a down to b inclusive, descending. -/
def descSteps (a b : Int) : List Int :=
  (List.range (a - b + 1).toNat).map (fun i => a - i)

/-- Record a sequence of degree writes on one axis. -/
def servoDegSeq (a : Axis) (vs : List Int) (s : DState) : DState :=
  { s with servoWrites := s.servoWrites ++ vs.map (ServoEv.deg a) }

/-- SERVO_PAN:<angle>: positional move, one degree at a time, only
when attached and the angle is within [30, 150]. -/
def servoPanH (rest : List Char) (s : DState) : DState :=
  if !s.panAttached then s
  else
    let a := toIntL rest
    if a < 30 ∨ 150 < a then s
    else
      let steps := if s.currentPanAngle < a then ascSteps s.currentPanAngle a
                   else descSteps s.currentPanAngle a
      { servoDegSeq Axis.pan steps s with currentPanAngle := a }

/-- SERVO_TILT:<angle>: positional move on the tilt axis; the target
is inverted (180 - angle) before moving. -/
def servoTiltH (rest : List Char) (s : DState) : DState :=
  if !s.tiltAttached then s
  else
    let a := toIntL rest
    if a < 30 ∨ 150 < a then s
    else
      let inv := 180 - a
      let steps := if s.currentTiltAngle < inv then ascSteps s.currentTiltAngle inv
                   else descSteps s.currentTiltAngle inv
      { servoDegSeq Axis.tilt steps s with currentTiltAngle := inv }

/-- SERVO_HELP: diagnostic print only. -/
def servoHelpH (s : DState) : DState := s

/-- The command dispatcher parseCommand: the linear matching chain of
main.cpp, in source order.  An unrecognised verb falls through and is
silently ignored. -/
def parseCommand (cmd : List Char) (s : DState) : DState :=
  if cmd = cDISCOVER then discoverH s
  else if cmd = cPING then pingH s
  else if cmd = cWIFI_RESET then wifiResetH s
  else if startsWithL cmd cTEXTpre = true then textH s
  else if startsWithL cmd cPpre = true ∧ 0 < charIndexOfL 'T' cmd then ptH cmd s
  else if cmd = cRESET_POS then resetPosH s
  else if cmd = cF_TALK_START then fTalkStartH s
  else if cmd = cF_TALK_STOP then fTalkStopH s
  else if cmd = cF_HAPPY then fHappyH s
  else if cmd = cF_SLEEP then fSleepH s
  else if cmd = cF_LISTENING then fListeningH s
  else if cmd = cF_SAD then fSadH s
  else if cmd = cF_LOVE then fLoveH s
  else if startsWithL cmd cLpre = true then lH cmd s
  else if startsWithL cmd cBpre = true then bH cmd s
  else if startsWithL cmd cCpre = true ∧ 0 < charIndexOfL ',' cmd then cH cmd s
  else if startsWithL cmd cCOLORpre = true then colorH cmd s
  else if cmd = cCHAT_START then chatStartH s
  else if cmd = cCHAT_STOP then chatStopH s
  else if startsWithL cmd cTONEpre = true then toneH cmd s
  else if startsWithL cmd cSOUND_TESTpre = true then soundTestH s
  else if cmd = cMIC_TEST then micTestH s
  else if cmd = cAMP_STATUS then ampStatusH s
  else if cmd = cAUDIO_START then audioStartH s
  else if cmd = cAUDIO_STOP then audioStopH s
  else if startsWithL cmd cSERVO_CALpre = true then servoCalH (cmd.drop 10) s
  else if startsWithL cmd cSERVO_CAL_PANpre = true then servoCalPanH (cmd.drop 14) s
  else if startsWithL cmd cSERVO_CAL_TILTpre = true then servoCalTiltH (cmd.drop 15) s
  else if cmd = cSERVO_ENABLE then servoEnableH s
  else if cmd = cSERVO_DISABLE then servoDisableH s
  else if cmd = cSERVO_STOP ∨ cmd = cSTOP then servoStopH s
  else if startsWithL cmd cSERVO_SPEEDpre = true then servoSpeedH (cmd.drop 12) s
  else if startsWithL cmd cSERVO_DURATIONpre = true then servoDurationH (cmd.drop 15) s
  else if cmd = cPAN_LEFT then panLeftH s
  else if cmd = cPAN_RIGHT then panRightH s
  else if cmd = cTILT_UP then tiltUpH s
  else if cmd = cTILT_DOWN then tiltDownH s
  else if cmd = cSERVO_TEST then servoTestH s
  else if cmd = cSERVO_STATUS then servoStatusH s
  else if startsWithL cmd cSERVO_PANpre = true then servoPanH (cmd.drop 10) s
  else if startsWithL cmd cSERVO_TILTpre = true then servoTiltH (cmd.drop 11) s
  else if cmd = cSERVO_HELP then servoHelpH s
  else s

/-- Run a sequence of commands through the dispatcher. -/
def runCmds (cs : List (List Char)) (s : DState) : DState :=
  cs.foldl (fun t c => parseCommand c t) s

/-- handleUDP: read one datagram into the 256-byte buffer (at most
255 bytes, NUL-terminated at the length read), learn the sender as
the peer, trim and dispatch. -/
def handleUDP (src : Nat) (dgram : List Char) (s : DState) : DState :=
  if dgram.length = 0 then s
  else
    let len := min dgram.length 255
    if 0 < len then
      let buf := dgram.take len
      parseCommand (trimL buf) { s with brainIP := src, brainConnected := true }
    else s

/-- One iteration of the speaker playback task's receive loop: on a
non-empty datagram, the very first packet received after start drives
the amplifier high. -/
def speakerPacketStep (bytes : List Nat) (s : DState) : DState :=
  if s.audioStreamingActive ∧ 0 < bytes.length then
    if !s.firstPacketReceived then setAmp true { s with firstPacketReceived := true }
    else s
  else s

/-! The microphone capture pipeline of micStreamTask (analog ADC
source): per-block signal conditioning and packet framing. -/

/-- Truncation of a rational toward zero: the C cast from float to a
(sufficiently wide) integer type. -/
def ratTrunc (q : ℚ) : Int := if q < 0 then ⌈q⌉ else ⌊q⌋

/-- The soft clamp of the filter output to plus or minus 32700. -/
def qclamp (y : ℚ) : ℚ := if y > 32700 then 32700 else if y < -32700 then -32700 else y

/-- The per-sample high pass loop of micStreamTask: carries the float
state (hp_prev_x, hp_prev_y) across samples (and, being static,
across blocks), clamps and truncates each output into the sample
buffer.  Returns the final filter state and the output samples. -/
def hpFilterClamp : ℚ → ℚ → List Int → (ℚ × ℚ) × List Int
  | px, py, [] => ((px, py), [])
  | px, py, x :: xs =>
    let xf : ℚ := (x : ℚ)
    let y : ℚ := (99 / 100 : ℚ) * (py + xf - px)
    let r := hpFilterClamp xf y xs
    (r.1, ratTrunc (qclamp y) :: r.2)

/-- The integer front half of one block of the analog capture path
of micStreamTask (its first two loops): mask each raw ADC word to 12
bits, centre it and scale to int16, then subtract the block mean (C
integer division toward zero, the difference stored back into an
int16_t). -/
def micPre (raw : List Nat) : List Int :=
  let mics := raw.map (fun (a : Nat) => wrap16 (((a : Int) % 4096 - 2048) * 16))
  let mean := Int.tdiv mics.sum (mics.length : Int)
  mics.map (fun x => wrap16 (x - mean))

/-- One block of the analog capture path of micStreamTask: the
integer conditioning front half followed by the high pass filter with
clamp.  Returns the samples of the packet payload and the carried
filter state. -/
def micProcessBlock (hpX hpY : ℚ) (raw : List Nat) : List Int × ℚ × ℚ :=
  let r := hpFilterClamp hpX hpY (micPre raw)
  (r.2, r.1)

/-- Big-endian encoding of a 32-bit word into 4 bytes, as the shifts
and masks of micStreamTask write it. -/
def encodeBE32 (n : Nat) : List Nat :=
  [n / 2 ^ 24 % 256, n / 2 ^ 16 % 256, n / 2 ^ 8 % 256, n % 256]

/-- Little-endian bytes of one int16 sample, as memcpy lays the
buffer out. -/
def leBytes16 (x : Int) : List Nat :=
  [(x % 65536).toNat % 256, (x % 65536).toNat / 256]

/-- Payload bytes of a mic packet. -/
def payloadBytes (samples : List Int) : List Nat :=
  samples.flatMap leBytes16

/-- The persistent state of the mic stream: the function-local static
uint32_t sequence counter and the two static filter floats.  Being
C++ function-local statics, they are initialised once per process and
survive stopping and restarting the audio pipeline. -/
structure MicSt where
  seq : Nat
  hpX : ℚ
  hpY : ℚ

/-- The state the statics hold at process start. -/
def bootMicState : MicSt := ⟨0, 0, 0⟩

/-- One iteration of the micStreamTask loop: read a block (ts is the
millis timestamp); when the read returned data and the brain is
connected, condition the block, frame it behind the 8-byte header
(big-endian sequence number, big-endian timestamp) and send it; the
sequence counter increments by one per packet sent, wrapping as a
uint32_t. -/
def micStep (connected : Bool) (st : MicSt) (ts : Nat) (raw : List Nat) :
    MicSt × List (List Nat) :=
  if 0 < raw.length ∧ connected = true then
    let r := micProcessBlock st.hpX st.hpY raw
    let pkt := encodeBE32 st.seq ++ encodeBE32 (ts % 2 ^ 32) ++ payloadBytes r.1
    (⟨(st.seq + 1) % 2 ^ 32, r.2.1, r.2.2⟩, [pkt])
  else (st, [])

/-- A run of the capture loop over a list of (timestamp, raw block)
reads, threading the static state and collecting the datagrams
sent. -/
def micRun (connected : Bool) : MicSt → List (Nat × List Nat) → MicSt × List (List Nat)
  | st, [] => (st, [])
  | st, (ts, raw) :: bs =>
    let r1 := micStep connected st ts raw
    let r2 := micRun connected r1.1 bs
    (r2.1, r1.2 ++ r2.2)

/-! Specification-side formulations of the capture conditioning
chain, written from the spec's words, to compare against
micProcessBlock. -/

/-- Spec step 1: conversion of each unsigned 12-bit raw sample to a
centered signed 16-bit value. -/
def specCenter (raw : List Nat) : List Int :=
  raw.map (fun (a : Nat) => ((a : Int) % 4096 - 2048) * 16)

/-- Spec step 2 as written: subtraction of the block mean. -/
def specMeanSub (xs : List Int) : List Int :=
  xs.map (fun x => x - Int.tdiv xs.sum (xs.length : Int))

/-- Step 2 as the code performs it: the difference is stored back
into an int16_t, so it wraps. -/
def specMeanSubWrap (xs : List Int) : List Int :=
  xs.map (fun x => wrap16 (x - Int.tdiv xs.sum (xs.length : Int)))

/-- Spec step 3: the single-pole high-pass IIR filter
y[n] = alpha * (y[n-1] + x[n] - x[n-1]) with alpha = 0.99, state
carried across the stream; yields the raw filter outputs. -/
def specHP : ℚ → ℚ → List Int → List ℚ
  | _, _, [] => []
  | px, py, x :: xs =>
    let y : ℚ := (99 / 100 : ℚ) * (py + (x : ℚ) - px)
    y :: specHP (x : ℚ) y xs

/-- Spec step 4: clamp each result to plus or minus 32700 (and store
it as an integer sample). -/
def specClampTrunc (ys : List ℚ) : List Int :=
  ys.map (fun y => ratTrunc (qclamp y))

/-- The conditioning chain exactly as the spec words it:
(1) centre, (2) plain mean subtraction, (3) high pass, (4) clamp. -/
def specChain (hpX hpY : ℚ) (raw : List Nat) : List Int :=
  specClampTrunc (specHP hpX hpY (specMeanSub (specCenter raw)))

/-- The conditioning chain with the one amendment the code forces:
the mean-subtracted values wrap as int16_t before entering the
filter. -/
def specChainWrap (hpX hpY : ℚ) (raw : List Nat) : List Int :=
  specClampTrunc (specHP hpX hpY (specMeanSubWrap (specCenter raw)))

/-! Dispatch lemmas: the matching chain evaluates each verb to its
handler.  Each is definitional; the out-of-line statements let later
proofs rewrite past the chain. -/

theorem dispatch_fTalkStart (s : DState) : parseCommand cF_TALK_START s = fTalkStartH s := rfl

theorem dispatch_fTalkStop (s : DState) : parseCommand cF_TALK_STOP s = fTalkStopH s := rfl

theorem dispatch_fHappy (s : DState) : parseCommand cF_HAPPY s = fHappyH s := rfl

theorem dispatch_fSleep (s : DState) : parseCommand cF_SLEEP s = fSleepH s := rfl

theorem dispatch_fListening (s : DState) : parseCommand cF_LISTENING s = fListeningH s := rfl

theorem dispatch_fSad (s : DState) : parseCommand cF_SAD s = fSadH s := rfl

theorem dispatch_fLove (s : DState) : parseCommand cF_LOVE s = fLoveH s := rfl

theorem dispatch_chatStart (s : DState) : parseCommand cCHAT_START s = chatStartH s := rfl

theorem dispatch_chatStop (s : DState) : parseCommand cCHAT_STOP s = chatStopH s := rfl

theorem dispatch_tone (s : DState) : parseCommand cTONEpre s = toneH cTONEpre s := rfl

theorem dispatch_audioStart (s : DState) : parseCommand cAUDIO_START s = audioStartH s := rfl

theorem dispatch_audioStop (s : DState) : parseCommand cAUDIO_STOP s = audioStopH s := rfl

theorem dispatch_servoCal (rest : List Char) (s : DState) :
    parseCommand (cSERVO_CALpre ++ rest) s = servoCalH rest s := rfl

theorem dispatch_servoCalPan (rest : List Char) (s : DState) :
    parseCommand (cSERVO_CAL_PANpre ++ rest) s = servoCalPanH rest s := rfl

theorem dispatch_servoCalTilt (rest : List Char) (s : DState) :
    parseCommand (cSERVO_CAL_TILTpre ++ rest) s = servoCalTiltH rest s := rfl

/-! Claim theorems. -/

/-- C10: CHAT_START leaves the mood colour (currentColor) unchanged
while setting the expression to LISTENING, unlike F_LISTENING which
sets the mood colour to green: for every state, after processing
CHAT_START the stored colour equals the colour before the command. -/
theorem chatStart_keeps_color (s : DState) :
    (parseCommand cCHAT_START s).currentColor = s.currentColor ∧
    (parseCommand cCHAT_START s).currentFace = Face.listening ∧
    (parseCommand cF_LISTENING s).currentColor = colorGreen := by
  refine ⟨?_, ?_, rfl⟩ <;>
    · rw [dispatch_chatStart]
      unfold chatStartH sendStatus
      split <;> rfl

/-- C8 (amended): TONE with no arguments plays a 1500 Hz, 300 ms
tone; the amplifier is forced on for the tone's duration and is
afterwards set from chatMode alone: left enabled when chatMode holds,
muted otherwise (not restored to its prior state). -/
theorem tone_amp_follows_chatMode (s : DState) :
    (parseCommand cTONEpre s).tones = s.tones ++ [(1500, 300)] ∧
    (parseCommand cTONEpre s).ampWrites
      = s.ampWrites ++ [true] ++ (if s.chatMode then [] else [false]) ∧
    (parseCommand cTONEpre s).ampEnabled = s.chatMode := by
  have h : parseCommand cTONEpre s = playTone 1500 300 s := rfl
  rw [h]
  unfold playTone setAmp
  cases hc : s.chatMode <;> simp [hc]

/-- C8 (counterexample to the claim as stated): with the amplifier
enabled before the tone because isTalking holds (chatMode off), the
amplifier is no longer enabled after the tone ends. -/
theorem tone_not_restoring_cex :
    (parseCommand cF_TALK_START initState).ampEnabled = true ∧
    (parseCommand cTONEpre (parseCommand cF_TALK_START initState)).ampEnabled = false := by
  decide

/-- A state with both servos attached (after SERVO_ENABLE hardware
bring-up), otherwise at boot defaults. -/
def servosAttachedState : DState :=
  { initState with panAttached := true, tiltAttached := true }

/-- C5: evaluation at the failing input PAN_LEFT.  Because "PAN_LEFT"
starts with P and contains T, the P-int-T-int branch shadows the
PAN_LEFT handler: the command stores clamped pan and tilt targets of
30 and locks the head, and no servo pulse is issued even with the
servo attached.  TILT_UP, by contrast, issues the documented
neutral + speed, neutral pulse pair. -/
theorem panLeft_shadowed_by_pt_branch :
    parseCommand cPAN_LEFT servosAttachedState
      = { servosAttachedState with targetPan := 30, targetTilt := 30, isLocked := true } ∧
    (parseCommand cTILT_UP servosAttachedState).servoWrites
      = [ServoEv.us Axis.tilt 1550, ServoEv.us Axis.tilt 1500] := by
  decide

/-- C3: AUDIO_START with no peer ever learned leaves streaming
inactive, installs no drivers, spawns no tasks and emits no reply;
AUDIO_STOP while inactive touches neither the tasks nor the drivers
nor the amplifier line. -/
theorem audio_start_stop_preconditions (s t : DState)
    (h1 : s.brainConnected = false) (h2 : s.audioStreamingActive = false)
    (h3 : t.audioStreamingActive = false) :
    (parseCommand cAUDIO_START s).audioStreamingActive = false ∧
    (parseCommand cAUDIO_START s).driversInstalled = s.driversInstalled ∧
    (parseCommand cAUDIO_START s).micTaskLive = s.micTaskLive ∧
    (parseCommand cAUDIO_START s).speakerTaskLive = s.speakerTaskLive ∧
    (parseCommand cAUDIO_START s).replies = s.replies ∧
    (parseCommand cAUDIO_STOP t).micTaskLive = t.micTaskLive ∧
    (parseCommand cAUDIO_STOP t).speakerTaskLive = t.speakerTaskLive ∧
    (parseCommand cAUDIO_STOP t).driversInstalled = t.driversInstalled ∧
    (parseCommand cAUDIO_STOP t).ampWrites = t.ampWrites := by
  rw [dispatch_audioStart, dispatch_audioStop]
  unfold audioStartH audioStopH startAudioStreaming stopAudioStreaming sendStatus
  simp [h1, h2, h3, apply_ite]

/-- C3 witness: the boot state satisfies both preconditions. -/
theorem audio_start_stop_preconditions_witness :
    (initState.brainConnected = false ∧ initState.audioStreamingActive = false) ∧
    (parseCommand cAUDIO_START initState).audioStreamingActive = false ∧
    (parseCommand cAUDIO_START initState).driversInstalled = initState.driversInstalled ∧
    (parseCommand cAUDIO_START initState).micTaskLive = initState.micTaskLive ∧
    (parseCommand cAUDIO_START initState).speakerTaskLive = initState.speakerTaskLive ∧
    (parseCommand cAUDIO_START initState).replies = initState.replies ∧
    (parseCommand cAUDIO_STOP initState).micTaskLive = initState.micTaskLive ∧
    (parseCommand cAUDIO_STOP initState).speakerTaskLive = initState.speakerTaskLive ∧
    (parseCommand cAUDIO_STOP initState).driversInstalled = initState.driversInstalled ∧
    (parseCommand cAUDIO_STOP initState).ampWrites = initState.ampWrites :=
  ⟨⟨rfl, rfl⟩, audio_start_stop_preconditions initState initState rfl rfl rfl⟩

/-- The amplifier invariant over the control-loop contributors: the
enable line agrees with the disjunction of isTalking and chatMode.
(The tone contributor is transient inside the synchronous playTone,
and the playback first-packet contributor lives in the speaker
task.) -/
abbrev ampInv (s : DState) : Prop := s.ampEnabled = (s.isTalking || s.chatMode)

/-- The face and chat commands of the expression state machine. -/
def faceChatCmds : List (List Char) :=
  [cF_TALK_START, cF_TALK_STOP, cF_HAPPY, cF_SLEEP, cF_LISTENING, cF_SAD, cF_LOVE,
   cCHAT_START, cCHAT_STOP]

/-- Each face or chat handler preserves the restricted amplifier
invariant. -/
theorem faceChat_preserves_ampInv (c : List Char) (hc : c ∈ faceChatCmds) (s : DState)
    (hs : ampInv s) : ampInv (parseCommand c s) := by
  fin_cases hc
  · rw [dispatch_fTalkStart]; simp [fTalkStartH, setAmp, ampInv]
  · rw [dispatch_fTalkStop]
    unfold fTalkStopH setAmp
    cases hchat : s.chatMode <;> simp [ampInv, hchat] at hs ⊢ <;> simp [hs]
  · rw [dispatch_fHappy]; simpa [fHappyH, ampInv] using hs
  · rw [dispatch_fSleep]; simp [fSleepH, setAmp, ampInv]
  · rw [dispatch_fListening]; simpa [fListeningH, ampInv] using hs
  · rw [dispatch_fSad]; simpa [fSadH, ampInv] using hs
  · rw [dispatch_fLove]; simpa [fLoveH, ampInv] using hs
  · rw [dispatch_chatStart]
    unfold chatStartH sendStatus
    split <;> simp [setAmp, ampInv]
  · rw [dispatch_chatStop]
    unfold chatStopH sendStatus
    split <;> simp [setAmp, ampInv]

/-- C1 (amended): restricted to the face and chat command handlers,
every reachable state satisfies amplifierEnabled iff isTalking or
chatMode; the handlers of F_TALK_STOP and friends write the line
directly, and the full four-contributor invariant of the claim fails
once TONE (or the playback path) is involved. -/
theorem amp_invariant_faceChat (cs : List (List Char))
    (h : ∀ c ∈ cs, c ∈ faceChatCmds) (s : DState) (hs : ampInv s) :
    ampInv (runCmds cs s) := by
  induction cs generalizing s with
  | nil => exact hs
  | cons c cs ih =>
    have h1 : runCmds (c :: cs) s = runCmds cs (parseCommand c s) := rfl
    rw [h1]
    exact ih (fun d hd => h d (List.mem_cons_of_mem _ hd)) _
      (faceChat_preserves_ampInv c (h c (List.mem_cons_self _ _)) s hs)

/-- C1 witness: a concrete face-chat command sequence from boot. -/
theorem amp_invariant_faceChat_witness :
    ((∀ c ∈ [cCHAT_START, cF_TALK_STOP], c ∈ faceChatCmds) ∧ ampInv initState) ∧
    ampInv (runCmds [cCHAT_START, cF_TALK_STOP] initState) :=
  ⟨⟨by decide, by decide⟩,
   amp_invariant_faceChat [cCHAT_START, cF_TALK_STOP] (by decide) initState (by decide)⟩

/-- C1 (counterexample to the claim as stated): after F_TALK_START
then TONE (a reachable command sequence from boot), isTalking still
holds but the amplifier-enable line is low, so the state violates
amplifierEnabled iff (isTalking or chatMode or toneActive or
firstAudioPacketReceived); no tone is playing and no audio packet was
ever received in this run. -/
theorem amp_invariant_cex :
    (runCmds [cF_TALK_START, cTONEpre] initState).isTalking = true ∧
    (runCmds [cF_TALK_START, cTONEpre] initState).chatMode = false ∧
    (runCmds [cF_TALK_START, cTONEpre] initState).firstPacketReceived = false ∧
    (runCmds [cF_TALK_START, cTONEpre] initState).ampEnabled = false := by
  decide

/-- The spec scenario command line "P200T10". -/
def cP200T10 : List Char := ['P', '2', '0', '0', 'T', '1', '0']

/-- C2: any command line dispatched by the P-int-T-int branch stores
a pan target and a tilt target inside [30, 150] and locks the head,
whatever the magnitude or sign of the numeric arguments;
in particular "P200T10" stores pan 150 and tilt 30. -/
theorem pt_command_clamps (cmd : List Char) (s : DState)
    (h1 : cmd ≠ cDISCOVER) (h2 : cmd ≠ cPING) (h3 : cmd ≠ cWIFI_RESET)
    (h4 : ¬ startsWithL cmd cTEXTpre = true)
    (h5 : startsWithL cmd cPpre = true ∧ 0 < charIndexOfL 'T' cmd) :
    (30 ≤ (parseCommand cmd s).targetPan ∧ (parseCommand cmd s).targetPan ≤ 150 ∧
     30 ≤ (parseCommand cmd s).targetTilt ∧ (parseCommand cmd s).targetTilt ≤ 150 ∧
     (parseCommand cmd s).isLocked = true) ∧
    (parseCommand cP200T10 s).targetPan = 150 ∧
    (parseCommand cP200T10 s).targetTilt = 30 ∧
    (parseCommand cP200T10 s).isLocked = true := by
  have hd : parseCommand cmd s = ptH cmd s := by
    unfold parseCommand
    rw [if_neg h1, if_neg h2, if_neg h3, if_neg h4, if_pos h5]
  refine ⟨?_, rfl, rfl, rfl⟩
  rw [hd]
  unfold ptH constrain
  refine ⟨?_, ?_, ?_, ?_, rfl⟩
  all_goals dsimp only
  all_goals split_ifs <;> omega

/-- C2 witness: the scenario input "P200T10" satisfies the dispatch
conditions and yields the clamped targets. -/
theorem pt_command_clamps_witness :
    (cP200T10 ≠ cDISCOVER ∧ cP200T10 ≠ cPING ∧ cP200T10 ≠ cWIFI_RESET ∧
     ¬ startsWithL cP200T10 cTEXTpre = true ∧
     (startsWithL cP200T10 cPpre = true ∧ 0 < charIndexOfL 'T' cP200T10)) ∧
    ((30 ≤ (parseCommand cP200T10 initState).targetPan ∧
      (parseCommand cP200T10 initState).targetPan ≤ 150 ∧
      30 ≤ (parseCommand cP200T10 initState).targetTilt ∧
      (parseCommand cP200T10 initState).targetTilt ≤ 150 ∧
      (parseCommand cP200T10 initState).isLocked = true) ∧
     (parseCommand cP200T10 initState).targetPan = 150 ∧
     (parseCommand cP200T10 initState).targetTilt = 30 ∧
     (parseCommand cP200T10 initState).isLocked = true) :=
  ⟨⟨by decide, by decide, by decide, by decide, by decide⟩,
   pt_command_clamps cP200T10 initState (by decide) (by decide) (by decide)
     (by decide) (by decide)⟩

/-- C7: the three servo calibration commands store an in-range
[1400, 1600] argument as the new neutral pulse width for the
addressed axis or axes, and reject any out-of-range argument with no
state change at all (no reply, prior neutrals kept). -/
theorem servo_cal_range_checked (rest : List Char) (s : DState) :
    (1400 ≤ toIntL rest ∧ toIntL rest ≤ 1600 →
      (parseCommand (cSERVO_CALpre ++ rest) s).neutralPan = toIntL rest ∧
      (parseCommand (cSERVO_CALpre ++ rest) s).neutralTilt = toIntL rest ∧
      (parseCommand (cSERVO_CAL_PANpre ++ rest) s).neutralPan = toIntL rest ∧
      (parseCommand (cSERVO_CAL_PANpre ++ rest) s).neutralTilt = s.neutralTilt ∧
      (parseCommand (cSERVO_CAL_TILTpre ++ rest) s).neutralTilt = toIntL rest ∧
      (parseCommand (cSERVO_CAL_TILTpre ++ rest) s).neutralPan = s.neutralPan) ∧
    (toIntL rest < 1400 ∨ 1600 < toIntL rest →
      parseCommand (cSERVO_CALpre ++ rest) s = s ∧
      parseCommand (cSERVO_CAL_PANpre ++ rest) s = s ∧
      parseCommand (cSERVO_CAL_TILTpre ++ rest) s = s) := by
  rw [dispatch_servoCal, dispatch_servoCalPan, dispatch_servoCalTilt]
  constructor
  · intro h
    simp only [servoCalH, servoCalPanH, servoCalTiltH]
    rw [if_pos h, if_pos h, if_pos h]
    refine ⟨?_, ?_, ?_, ?_, ?_, ?_⟩ <;> (split <;> rfl)
  · intro h
    have hn : ¬ (1400 ≤ toIntL rest ∧ toIntL rest ≤ 1600) := by omega
    simp only [servoCalH, servoCalPanH, servoCalTiltH]
    rw [if_neg hn, if_neg hn, if_neg hn]
    exact ⟨rfl, rfl, rfl⟩

/-- The spec scenario argument "1700" and an in-range "1500". -/
def r1700 : List Char := ['1', '7', '0', '0']

def r1500 : List Char := ['1', '5', '0', '0']

/-- C7 witness: SERVO_CAL:1700 (and the per-axis variants) leave the
state untouched; SERVO_CAL:1500 stores the new neutral. -/
theorem servo_cal_range_checked_witness :
    ((toIntL r1700 < 1400 ∨ 1600 < toIntL r1700) ∧
      (parseCommand (cSERVO_CALpre ++ r1700) initState = initState ∧
       parseCommand (cSERVO_CAL_PANpre ++ r1700) initState = initState ∧
       parseCommand (cSERVO_CAL_TILTpre ++ r1700) initState = initState)) ∧
    ((1400 ≤ toIntL r1500 ∧ toIntL r1500 ≤ 1600) ∧
      (parseCommand (cSERVO_CALpre ++ r1500) initState).neutralPan = toIntL r1500) :=
  ⟨⟨by decide, (servo_cal_range_checked r1700 initState).2 (by decide)⟩,
   ⟨by decide, ((servo_cal_range_checked r1500 initState).1 (by decide)).1⟩⟩

/-- C9: every inbound control datagram is truncated to its first 255
bytes (the 256-byte buffer, NUL-terminated at the length read) before
trimming and dispatch; a longer datagram behaves exactly like its
first 255 bytes, with no error and no extra reply. -/
theorem handleUDP_truncates (src : Nat) (dgram : List Char) (s : DState) :
    handleUDP src dgram s
      = if dgram = [] then s
        else parseCommand (trimL (dgram.take 255))
            { s with brainIP := src, brainConnected := true } := by
  cases dgram with
  | nil => rfl
  | cons a l =>
    simp only [handleUDP]
    have h0 : ¬ ((a :: l).length = 0) := by simp
    rw [if_neg h0, if_neg (List.cons_ne_nil a l)]
    have hp : 0 < min (a :: l).length 255 := by
      simp [List.length_cons]
    rw [if_pos hp]
    congr 2
    rw [List.take_eq_take]
    omega

/-- The first four bytes of a framed packet are the sequence-number
header. -/
theorem take4_encode (n : Nat) (l : List Nat) : (encodeBE32 n ++ l).take 4 = encodeBE32 n := rfl

/-- Headers of one capture run: packet i carries the big-endian
encoding of (start + i) mod 2 ^ 32, and the counter leaves the run at
(start + count) mod 2 ^ 32. -/
theorem micRun_headers (bs : List (Nat × List Nat)) (st : MicSt) (hseq : st.seq < 2 ^ 32)
    (h : ∀ b ∈ bs, b.2 ≠ []) :
    (micRun true st bs).2.map (List.take 4)
        = (List.range bs.length).map (fun i => encodeBE32 ((st.seq + i) % 2 ^ 32)) ∧
    (micRun true st bs).1.seq = (st.seq + bs.length) % 2 ^ 32 := by
  induction bs generalizing st with
  | nil =>
    simp [micRun]
    omega
  | cons b bs ih =>
    obtain ⟨ts, raw⟩ := b
    have hne : raw ≠ [] := h (ts, raw) (List.mem_cons_self _ _)
    have hlen : 0 < raw.length := List.length_pos.mpr hne
    have hrec := ih ⟨(st.seq + 1) % 2 ^ 32, (micProcessBlock st.hpX st.hpY raw).2.1,
        (micProcessBlock st.hpX st.hpY raw).2.2⟩
      (Nat.mod_lt _ (by norm_num))
      (fun d hd => h d (List.mem_cons_of_mem _ hd))
    simp only [micRun, micStep, and_true]
    rw [if_pos hlen]
    dsimp only at hrec ⊢
    constructor
    · simp only [List.cons_append, List.nil_append, List.map_cons, List.length_cons,
        List.range_succ_eq_map, List.map_map]
      congr 1
      · rw [List.append_assoc, take4_encode, Nat.add_zero, Nat.mod_eq_of_lt hseq]
      · rw [hrec.1]
        apply List.map_congr_left
        intro i _
        simp only [Function.comp_apply]
        rw [Nat.mod_add_mod]
        congr 1
        omega
    · rw [hrec.2, Nat.mod_add_mod]
      congr 1
      simp only [List.length_cons]
      omega

/-- C4: across two capture sessions run back to back on the static
counter state (the audio pipeline stopped and restarted in between),
the 4-byte big-endian sequence headers of all transmitted packets are
0, 1, 2, ... modulo 2 ^ 32: the counter starts at 0 at process start,
increments by exactly one per transmitted packet, and is not reset by
stopping and restarting the pipeline. -/
theorem mic_seq_monotonic (bs1 bs2 : List (Nat × List Nat))
    (h1 : ∀ b ∈ bs1, b.2 ≠ []) (h2 : ∀ b ∈ bs2, b.2 ≠ []) :
    ((micRun true bootMicState bs1).2 ++
        (micRun true (micRun true bootMicState bs1).1 bs2).2).map (List.take 4)
      = (List.range (bs1.length + bs2.length)).map (fun i => encodeBE32 (i % 2 ^ 32)) := by
  have hb : bootMicState.seq = 0 := rfl
  have r1 := micRun_headers bs1 bootMicState (by decide) h1
  have hs1 : (micRun true bootMicState bs1).1.seq = bs1.length % 2 ^ 32 := by
    rw [r1.2, hb, Nat.zero_add]
  have r2 := micRun_headers bs2 (micRun true bootMicState bs1).1
    (by rw [hs1]; exact Nat.mod_lt _ (by norm_num)) h2
  rw [List.map_append, r1.1, r2.1, hb, hs1, List.range_add, List.map_append, List.map_map]
  congr 1
  all_goals (apply List.map_congr_left; intro i _; simp [Nat.mod_add_mod])

/-- C4 witness: two one-block sessions and then a third block after a
restart of the pipeline produce headers 0, 1, 2. -/
theorem mic_seq_monotonic_witness :
    ((∀ b ∈ [((5 : Nat), [(1 : Nat)]), (6, [2])], b.2 ≠ []) ∧
      (∀ b ∈ [((7 : Nat), [(3 : Nat)])], b.2 ≠ [])) ∧
    ((micRun true bootMicState [(5, [1]), (6, [2])]).2 ++
        (micRun true (micRun true bootMicState [(5, [1]), (6, [2])]).1 [(7, [3])]).2).map
          (List.take 4)
      = (List.range ([((5 : Nat), [(1 : Nat)]), (6, [2])].length +
          [((7 : Nat), [(3 : Nat)])].length)).map (fun i => encodeBE32 (i % 2 ^ 32)) :=
  ⟨⟨by decide, by decide⟩, mic_seq_monotonic _ _ (by decide) (by decide)⟩

/-- The int16 store of the centring conversion never wraps: 12-bit
input centred and scaled stays inside the int16 range. -/
theorem wrap16_center (a : Nat) :
    wrap16 (((a : Int) % 4096 - 2048) * 16) = ((a : Int) % 4096 - 2048) * 16 := by
  unfold wrap16
  omega

/-- Fusing the filter loop with the clamp-and-store step: the code's
single loop equals the spec's filter stage followed by its clamp
stage. -/
theorem hpFilterClamp_eq_spec (xs : List Int) : ∀ px py : ℚ,
    (hpFilterClamp px py xs).2 = specClampTrunc (specHP px py xs) := by
  induction xs with
  | nil => intro px py; rfl
  | cons x xs ih =>
    intro px py
    simp only [hpFilterClamp, specHP]
    rw [ih]
    rfl

/-- The integer front half of the capture path equals centring
followed by wrapping mean subtraction. -/
theorem micPre_eq_spec (raw : List Nat) : micPre raw = specMeanSubWrap (specCenter raw) := by
  simp only [micPre, specMeanSubWrap, specCenter]
  rw [List.map_congr_left (fun a _ => wrap16_center a)]

/-- C6 (amended): for every captured analog block, the transmitted
samples equal the chain (1) centring conversion, (2) block-mean
subtraction with the difference truncated to int16 (wrapping),
(3) the carried high pass filter y[n] = 0.99 (y[n-1] + x[n] -
x[n-1]), (4) clamp to plus or minus 32700. -/
theorem mic_block_eq_specChainWrap (hpX hpY : ℚ) (raw : List Nat) :
    (micProcessBlock hpX hpY raw).1 = specChainWrap hpX hpY raw := by
  simp only [micProcessBlock, specChainWrap]
  rw [micPre_eq_spec, hpFilterClamp_eq_spec]

/-- The spec-worded (non-wrapping) mean subtraction on the block
0, 0, 4095. -/
theorem mic_pre_cex_a : specMeanSub (specCenter [0, 0, 4095]) = [-21840, -21840, 43680] := by
  decide

/-- The code's front half on the same block: the third difference
32752 + 10928 = 43680 wraps to -21856 in the int16 store. -/
theorem mic_pre_cex_b : micPre [0, 0, 4095] = [-21840, -21840, -21856] := by
  decide

/-- The spec-worded chain on the block 0, 0, 4095 from cleared filter
state. -/
theorem spec_eval_cex :
    specChain 0 0 [0, 0, 4095] = [-21621, -21405, 32700] := by
  unfold specChain
  rw [mic_pre_cex_a]
  norm_num [specHP, specClampTrunc, qclamp, ratTrunc, Int.ceil_eq_iff]

/-- The code's conditioning on the same block. -/
theorem code_eval_cex :
    (micProcessBlock 0 0 [0, 0, 4095]).1 = [-21621, -21405, -21207] := by
  simp only [micProcessBlock]
  rw [mic_pre_cex_b]
  norm_num [hpFilterClamp, qclamp, ratTrunc, Int.ceil_eq_iff]

/-- C6 (counterexample to the claim as stated): on the admissible
12-bit block 0, 0, 4095 the transmitted samples differ from the
spec's plain-subtraction chain, because the third mean-subtracted
value (43680) wraps in the int16_t buffer before entering the
filter. -/
theorem mic_filter_wrap_cex :
    specChain 0 0 [0, 0, 4095] ≠ (micProcessBlock 0 0 [0, 0, 4095]).1 := by
  rw [spec_eval_cex, code_eval_cex]
  decide
